import Mathlib

/-!
Verification development for the realtime_map repository.

The definitions below are a shallow embedding of the coordination and
marker-reconciliation code of the repository:

* geoUtils (normalizeCoordinates) and iconSizeUtils (calculateIconSizes),
* markerManager (processMarkers, updateMarkersFromData, shouldRefreshAllMarkers,
  updateChangedMarkers, hasMarkerChanged, duplicateMarkerAcrossDateLine),
* mapCoordinator (queueEvent, startEvent, executeEvent, eventCompleted,
  handleEventError, isEventInterruptible, determineAction),
* realtimeManager (performUpdate, scheduleNextUpdate, startUpdates, stopUpdates).

Numbers are modeled as rationals, JavaScript field values that may be null or
absent as an explicit three-valued type, and the asynchronous completion of a
dispatched downstream operation as a separate transition on the coordinator
state.  Wall-clock reads (Date.now()) are threaded through as an explicit
`now` argument.
-/

namespace RealtimeMap

/-! ### geoUtils.js -/

/-- normalizeCoordinates from geoUtils.js: longitudes above 180 are shifted
down by 360, longitudes below -180 are shifted up by 360, anything else is
returned unchanged. -/
def normalizeCoordinates (lon : ℚ) : ℚ :=
  if lon > 180 then lon - 360
  else if lon < -180 then lon + 360
  else lon

/-! ### Marker data model (markerManager.js)

A lat or lon field of an incoming record can hold a number, be null, or be
absent (undefined).  The manager tests the fields with a strict equality
against null, so null and undefined behave differently and the model keeps
them distinct. -/

/-- A JavaScript numeric field: a number, null, or absent (undefined). -/
inductive JsNum where
  | undef
  | null
  | num (q : ℚ)
deriving DecidableEq, Repr

/-- Strict-equality test against null, as in `marker.lat === null`. -/
def isNullVal : JsNum → Bool
  | JsNum.null => true
  | _ => false

/-- The comparison `v < c` on a JavaScript value: false unless v is a number
(comparisons against null or undefined coerce to NaN and are false; null
cannot reach the comparison sites in the source because null coordinates are
filtered out first). -/
def JsNum.ltNum : JsNum → ℚ → Bool
  | JsNum.num q, c => q < c
  | _, _ => false

/-- The comparison `v > c` on a JavaScript value. -/
def JsNum.gtNum : JsNum → ℚ → Bool
  | JsNum.num q, c => c < q
  | _, _ => false

/-- An incoming marker record, before the manager assigns derived fields.
The id may be absent.  Rendering-only derived fields (iconNumber, iconColor)
are not read by any modeled operation and are omitted. -/
structure RawMarker where
  id : Option String
  i : Int
  lat : JsNum
  lon : JsNum
  name : String
  var : ℚ
deriving DecidableEq, Repr

/-- A marker held in the live set (this.markers), with its id resolved. -/
structure Marker where
  id : String
  i : Int
  lat : JsNum
  lon : JsNum
  name : String
  var : ℚ
deriving DecidableEq, Repr

/-- Id assignment `marker.id = marker.id || s!...`: an absent id, or the
falsy empty string, is replaced by marker_ followed by the index. -/
def resolveId (m : RawMarker) : String :=
  match m.id with
  | some s => if s = "" then "marker_" ++ toString m.i else s
  | none => "marker_" ++ toString m.i

/-- The record as stored in the live set after id assignment. -/
def addMarkerProps (m : RawMarker) : Marker :=
  { id := resolveId m, i := m.i, lat := m.lat, lon := m.lon,
    name := m.name, var := m.var }

/-- Re-embedding of a live marker as an incoming record carrying its id. -/
def rawOf (m : Marker) : RawMarker :=
  { id := some m.id, i := m.i, lat := m.lat, lon := m.lon,
    name := m.name, var := m.var }

/-- The date-line test `marker.lon < -140 || marker.lon > 140`. -/
def crossesDateLine (lon : JsNum) : Bool :=
  lon.ltNum (-140) || lon.gtNum 140

/-- The mirrored longitude computed by duplicateMarkerAcrossDateLine:
`lon < 0 ? 180 + (180 + lon) : -180 - (180 - lon)`. -/
def dateLineLon (lon : ℚ) : ℚ :=
  if lon < 0 then 180 + (180 + lon) else -180 - (180 - lon)

/-- duplicateMarkerAcrossDateLine from markerManager.js: a copy of the marker
whose id gains the _dateline suffix and whose longitude is mirrored across
the antimeridian. -/
def duplicateMarkerAcrossDateLine (m : Marker) : Marker :=
  { m with
    id := m.id ++ "_dateline",
    lon := match m.lon with
           | JsNum.num q => JsNum.num (dateLineLon q)
           | v => v }

/-- processMarkers from markerManager.js, restricted to the data it leaves in
this.markers: records are annotated with a resolved id; records whose lat or
lon is strictly null are dropped; every kept record whose longitude passes
the date-line test is followed by its synthetic duplicate.  (The list of
coordinate-less markers is collected by the source but never used.) -/
def processMarkers (markerList : List RawMarker) : List Marker :=
  markerList.foldl
    (fun acc m =>
      let mk := addMarkerProps m
      if isNullVal mk.lat || isNullVal mk.lon then acc
      else if crossesDateLine mk.lon then
        acc ++ [mk, duplicateMarkerAcrossDateLine mk]
      else acc ++ [mk])
    []

/-- hasMarkerChanged from markerManager.js: strict inequality on lat, lon,
name, var, and i. -/
def hasMarkerChanged (oldMarker : Marker) (newMarker : RawMarker) : Bool :=
  decide (oldMarker.lat ≠ newMarker.lat) || decide (oldMarker.lon ≠ newMarker.lon) ||
  decide (oldMarker.name ≠ newMarker.name) || decide (oldMarker.var ≠ newMarker.var) ||
  decide (oldMarker.i ≠ newMarker.i)

/-- Lookup in the Map built by `this.markers.forEach(m => map.set(m.id, m))`:
for duplicate ids the last insertion wins. -/
def mapLookup (ms : List Marker) (mid : String) : Option Marker :=
  (ms.filter (fun m => m.id == mid)).getLast?

/-- The bookkeeping state threaded through the diff pass of
updateChangedMarkers: the ids still scheduled for removal, the staged new
markers, and the markers handed to updateMarker (in-place updates). -/
structure DiffState where
  toRemove : List String
  toAdd : List Marker
  updated : List Marker
deriving DecidableEq, Repr

/-- One iteration of the diff loop in updateChangedMarkers. -/
def diffStep (currentLookup : String → Option Marker) (st : DiffState)
    (nm : RawMarker) : DiffState :=
  let nid := resolveId nm
  if isNullVal nm.lat || isNullVal nm.lon then st
  else
    let st1 := { st with toRemove := st.toRemove.erase nid }
    match currentLookup nid with
    | some cur =>
        if hasMarkerChanged cur nm then
          { st1 with updated := st1.updated ++ [addMarkerProps nm] }
        else st1
    | none =>
        let base := addMarkerProps nm
        if crossesDateLine nm.lon then
          { st1 with toAdd := st1.toAdd ++ [base, duplicateMarkerAcrossDateLine base] }
        else
          { st1 with toAdd := st1.toAdd ++ [base] }

/-- updateChangedMarkers from markerManager.js as a pure diff: the initial
removal set holds every current id (Map keys, i.e. first occurrences), and
each incoming record is processed by diffStep.  After the pass the source
removes every id left in toRemove and batch-creates every marker in toAdd. -/
def updateChangedMarkers (current : List Marker) (newList : List RawMarker) :
    DiffState :=
  newList.foldl (diffStep (mapLookup current))
    { toRemove := (current.map (fun m => m.id)).dedup, toAdd := [], updated := [] }

/-- The refresh payload `{ list, map_url?, refreshMode? }`.  The truthiness
of the two structural-change flags is modeled as a Bool. -/
structure UpdatePayload where
  list : Option (List RawMarker)
  map_url : Bool
  refreshMode : Bool
deriving DecidableEq, Repr

/-- shouldRefreshAllMarkers from markerManager.js: a full rebuild when the
size difference exceeds 10 or a structural-change flag is set. -/
def shouldRefreshAllMarkers (markersLen : ℕ) (data : UpdatePayload) : Bool :=
  match data.list with
  | some l => decide (10 < ((markersLen : ℤ) - (l.length : ℤ)).natAbs)
              || data.map_url || data.refreshMode
  | none => false

/-- Which path updateMarkersFromData takes. -/
inductive UpdatePath where
  | noop
  | full
  | incremental
deriving DecidableEq, Repr

/-- The routing decision of updateMarkersFromData: no-op without a list,
otherwise full rebuild (processMarkers) or incremental diff
(updateChangedMarkers) according to shouldRefreshAllMarkers. -/
def updateMarkersFromData (markersLen : ℕ) (data : UpdatePayload) : UpdatePath :=
  match data.list with
  | none => UpdatePath.noop
  | some _ =>
      if shouldRefreshAllMarkers markersLen data then UpdatePath.full
      else UpdatePath.incremental

/-! ### iconSizeUtils.js -/

/-- One icon size configuration: size, anchor, popupAnchor. -/
structure IconSpec where
  size : ℚ × ℚ
  anchor : ℚ × ℚ
  popupAnchor : ℚ × ℚ
deriving DecidableEq, Repr

/-- The pair of configurations returned by calculateIconSizes. -/
structure IconSizes where
  icon : IconSpec
  satellite : IconSpec
deriving DecidableEq, Repr

/-- The return value of calculateIconSizes built from the two selected sizes,
with anchors at half the size and the popup anchor above the icon. -/
def buildIconSizes (iconSize satIconSize : ℚ × ℚ) : IconSizes :=
  { icon := { size := iconSize,
              anchor := (iconSize.1 / 2, iconSize.2 / 2),
              popupAnchor := (0, -(iconSize.2 / 2)) },
    satellite := { size := satIconSize,
                   anchor := (satIconSize.1 / 2, satIconSize.2 / 2),
                   popupAnchor := (0, -(satIconSize.2 / 2)) } }

/-- calculateIconSizes from iconSizeUtils.js: five discrete zoom tiers,
larger icons at lower zoom. -/
def calculateIconSizes (zoomLevel : ℚ) : IconSizes :=
  if 13 ≤ zoomLevel then buildIconSizes (16, 16) (14, 14)
  else if 10 ≤ zoomLevel then buildIconSizes (24, 24) (20, 20)
  else if 7 ≤ zoomLevel then buildIconSizes (32, 32) (26, 26)
  else if 5 ≤ zoomLevel then buildIconSizes (40, 40) (32, 32)
  else buildIconSizes (48, 48) (40, 40)

/-! ### realtimeManager.js -/

/-- maxConsecutiveErrors from realtimeManager.js. -/
def maxConsecutiveErrors : ℕ := 3

/-- The mutable state of the realtime manager that the update path reads and
writes.  updateTimer models whether a timer handle is stored
(this.updateTimer !== null); note the stored handle of a timer that has
already fired still counts as truthy. -/
structure RealtimeState where
  updateTimer : Bool
  errorCount : ℕ
  isUpdating : Bool
  lastUpdateTime : Option ℕ
deriving DecidableEq, Repr

/-- How a single update attempt went: the fetch produced data and the marker
update resolved; the fetch returned null (early return); or the fetch or the
marker update threw. -/
inductive UpdateOutcome where
  | success
  | noData
  | failure
deriving DecidableEq, Repr

/-- The state after performUpdate together with whether the finally block
invoked scheduleNextUpdate (i.e. whether a further tick was scheduled). -/
structure PerformResult where
  rt : RealtimeState
  scheduledNext : Bool
deriving DecidableEq, Repr

/-- performUpdate from realtimeManager.js.  externalCoordinator is true when
a coordinator argument was passed (a manual update driven by the event
coordinator).  On failure the error counter is incremented and, once it
reaches maxConsecutiveErrors, the catch block returns early — but the
finally block still runs, and it reschedules whenever the call was internal
and a timer handle is stored. -/
def performUpdate (rt : RealtimeState) (externalCoordinator : Bool)
    (outcome : UpdateOutcome) (now : ℕ) : PerformResult :=
  let rt1 :=
    match outcome with
    | UpdateOutcome.success =>
        { rt with isUpdating := true, lastUpdateTime := some now, errorCount := 0 }
    | UpdateOutcome.noData => { rt with isUpdating := true }
    | UpdateOutcome.failure =>
        { rt with isUpdating := true, errorCount := rt.errorCount + 1 }
  let resched := !externalCoordinator && rt1.updateTimer
  { rt := { rt1 with isUpdating := false,
                     updateTimer := if resched then true else rt1.updateTimer },
    scheduledNext := resched }

/-- The body of the timer scheduled by scheduleNextUpdate: when the map is
ready and the user is not interacting it performs an internal update,
otherwise it reschedules without fetching. -/
def timerTick (rt : RealtimeState) (isReady userInteracting : Bool)
    (outcome : UpdateOutcome) (now : ℕ) : PerformResult :=
  if isReady && !userInteracting then performUpdate rt false outcome now
  else { rt := rt, scheduledNext := true }

/-- stopUpdates: clears the stored timer handle. -/
def stopUpdates (rt : RealtimeState) : RealtimeState :=
  { rt with updateTimer := false }

/-- startUpdates: stops any existing timer and schedules an immediate first
tick (the error counter is not reset). -/
def startUpdates (rt : RealtimeState) : RealtimeState :=
  { (stopUpdates rt) with updateTimer := true }

/-! ### mapCoordinator.js

The coordinator state is generic in the payload type carried by events.
Asynchronous dispatches (the `then` chains of executeEvent) are modeled as a
pending downstream operation: executeEvent leaves the state unchanged when
the event type has an asynchronous handler and a component instance is
registered, and the later resolution or rejection is a separate transition
(eventCompleted or handleEventError). -/

/-- The coordinator error record. -/
structure ErrorInfo where
  code : ℤ
  message : String
deriving DecidableEq, Repr

/-- The currentEvent slot while an event is active (type non-null). -/
structure ActiveEvent (α : Type) where
  type : String
  action : String
  startTime : ℕ
  isInterruptible : Bool
  priority : String
  progress : ℕ
  data : α
deriving DecidableEq, Repr

/-- An entry of the pending event queue. -/
structure QueuedEvent (α : Type) where
  type : String
  data : α
  priority : String
  timestamp : ℕ
deriving DecidableEq, Repr

/-- The lastUserEvent record once set. -/
structure UserEventRecord (α : Type) where
  type : String
  timestamp : ℕ
  data : α
deriving DecidableEq, Repr

/-- The coordinator state created by createCoordinator, restricted to the
fields the event system reads or writes.  currentEvent is none exactly when
the slot holds type null; componentInstance records whether a component
instance is registered (registerEvents was called). -/
structure Coordinator (α : Type) where
  state : String
  isReady : Bool
  userInteracting : Bool
  pendingUpdates : Bool
  realtimeInterval : ℚ
  currentMarkerMode : String
  currentZoom : ℚ
  iconSizes : IconSizes
  errorInfo : ErrorInfo
  currentEvent : Option (ActiveEvent α)
  eventQueue : List (QueuedEvent α)
  lastUserEvent : Option (UserEventRecord α)
  componentInstance : Bool
deriving DecidableEq

/-- createCoordinator from mapCoordinator.js. -/
def createCoordinator (α : Type) : Coordinator α :=
  { state := "initializing", isReady := false, userInteracting := false,
    pendingUpdates := false, realtimeInterval := 5,
    currentMarkerMode := "num_state", currentZoom := 5,
    iconSizes := calculateIconSizes 5,
    errorInfo := { code := 0, message := "" },
    currentEvent := none, eventQueue := [], lastUserEvent := none,
    componentInstance := false }

/-- isEventInterruptible from mapCoordinator.js: everything is interruptible
except initialization and error_handling.  (The source also consults
this.currentEvent.priority, but `this` is the module object, which has no
currentEvent property, so that branch never fires.) -/
def isEventInterruptible (eventType : String) : Bool :=
  !(["initialization", "error_handling"].contains eventType)

/-- determineAction from mapCoordinator.js. -/
def determineAction (eventType : String) : String :=
  match eventType with
  | "data_update" => "updateMap"
  | "process_markers" => "processMarkers"
  | "user_zoom_change" => "handleZoomChange"
  | "user_bounds_change" => "handleBoundsChange"
  | "user_center_change" => "handleCenterChange"
  | "marker_click" => "handleMarkerClick"
  | "marker_hover" => "handleMarkerHover"
  | "realtime_update" => "handleRealtimeUpdate"
  | "update_icon_sizes" => "updateIconSizes"
  | "update_tooltip_state" => "updateTooltipState"
  | "update_marker_mode" => "updateMarkerMode"
  | _ => "unknownAction"

/-- The event types with a case in the executeEvent switch, i.e. the types
whose dispatch hands off to an asynchronous downstream operation.  Note that
marker_click and marker_hover have actions in the map but no switch case, so
they fall to the default branch and complete immediately. -/
def hasAsyncHandler (eventType : String) : Bool :=
  ["data_update", "process_markers", "update_icon_sizes",
   "update_tooltip_state", "update_marker_mode", "user_zoom_change",
   "user_bounds_change", "user_center_change", "realtime_update"].contains eventType

/-- The active slot built by startEvent. -/
def mkActiveEvent (eventType : String) (eventData : α) (priority : String)
    (now : ℕ) : ActiveEvent α :=
  { type := eventType, action := determineAction eventType, startTime := now,
    isInterruptible := isEventInterruptible eventType, priority := priority,
    progress := 0, data := eventData }

/-- The falsy-default `interruptedEvent.priority || normal`: only the empty
string is a falsy string. -/
def jsOrNormal (p : String) : String :=
  if p = "" then "normal" else p

/-- The user-origin test `eventType.startsWith(...)` of queueEvent, computed
structurally on the underlying character lists. -/
def strStartsWith (s p : String) : Bool :=
  p.data.isPrefixOf s.data

/-- Whether a queue entry has high priority, as tested by the sort
comparator of eventCompleted. -/
def isHighQ (e : QueuedEvent α) : Bool :=
  e.priority == "high"

/-- The total preorder induced by the comparator
`(a, b) => a.high && !b.high ? -1 : b.high && !a.high ? 1 : 0`:
a sorts no later than b when a is high or b is not. -/
def queueLe (a b : QueuedEvent α) : Bool :=
  isHighQ a || !isHighQ b

/-- The in-place `eventQueue.sort(comparator)` of eventCompleted.
Array.prototype.sort is stable (ES2019), modeled by the stable mergeSort. -/
def sortQueue (q : List (QueuedEvent α)) : List (QueuedEvent α) :=
  q.mergeSort queueLe

/-- The completion cascade: eventCompleted resets the slot and, when the
queue is non-empty, sorts it, pops the front and starts it; if the started
event has no asynchronous handler (or no component instance is registered),
executeEvent completes it synchronously and the cascade continues.  The fuel
is the queue length: each round consumes exactly one queue entry, so the
fuel never runs out (the zero case coincides with the empty-queue case). -/
def completeAux (α : Type) : ℕ → Coordinator α → ℕ → Coordinator α
  | 0, c, _ => { c with currentEvent := none }
  | n + 1, c, now =>
    match sortQueue c.eventQueue with
    | [] => { c with currentEvent := none }
    | e :: rest =>
        let c2 : Coordinator α :=
          { c with currentEvent := some (mkActiveEvent e.type e.data "normal" now),
                   eventQueue := rest }
        if c.componentInstance && hasAsyncHandler e.type then c2
        else completeAux α n c2 now

/-- eventCompleted from mapCoordinator.js. -/
def eventCompleted (c : Coordinator α) (now : ℕ) : Coordinator α :=
  completeAux α c.eventQueue.length c now

/-- executeEvent from mapCoordinator.js: with a registered component and an
event type handled by the switch, an asynchronous downstream operation is
started and the state is untouched until it resolves; without a component
instance, or for a type without a switch case, the event is completed
synchronously. -/
def executeEvent (c : Coordinator α) (now : ℕ) : Coordinator α :=
  match c.currentEvent with
  | none => c
  | some a =>
      if c.componentInstance && hasAsyncHandler a.type then c
      else eventCompleted c now

/-- startEvent from mapCoordinator.js: fills the active slot and executes. -/
def startEvent (c : Coordinator α) (eventType : String) (eventData : α)
    (priority : String) (now : ℕ) : Coordinator α :=
  executeEvent
    { c with currentEvent := some (mkActiveEvent eventType eventData priority now) }
    now

/-- queueEvent from mapCoordinator.js.  A critical submission requeues any
active event at the front (keeping its priority, with the falsy default) and
starts immediately; with no active event the submission starts immediately;
a high-priority or user-originated submission preempts an interruptible
active event, requeuing it at the front promoted to high; otherwise the
submission is appended to the tail.  (On a critical update_marker_mode the
source also stops the realtime manager timer; that side effect lives in the
separately modeled RealtimeState.)  Note that only the critical path passes
a priority to startEvent: every other start uses the default normal. -/
def queueEvent (c : Coordinator α) (eventType : String) (eventData : α)
    (priority : String) (now : ℕ) : Coordinator α :=
  if priority = "critical" then
    let c1 :=
      match c.currentEvent with
      | some a =>
          { c with eventQueue :=
              { type := a.type, data := a.data,
                priority := jsOrNormal a.priority, timestamp := now } :: c.eventQueue }
      | none => c
    startEvent c1 eventType eventData "critical" now
  else
    match c.currentEvent with
    | none => startEvent c eventType eventData "normal" now
    | some a =>
        if (priority == "high" || strStartsWith eventType "user_") && a.isInterruptible then
          let c1 :=
            { c with eventQueue :=
                { type := a.type, data := a.data,
                  priority := "high", timestamp := now } :: c.eventQueue }
          startEvent c1 eventType eventData "normal" now
        else
          let c1 :=
            { c with eventQueue :=
                c.eventQueue ++
                  [{ type := eventType, data := eventData,
                     priority := priority, timestamp := now }] }
          if strStartsWith eventType "user_" then
            { c1 with
              lastUserEvent :=
                some { type := eventType, timestamp := now, data := eventData } }
          else c1

/-- handleEventError from mapCoordinator.js: records a 500 error built from
the active event type and the error message, moves the coordinator to the
error state, and completes the event so the queue keeps draining.  (String
interpolation of a null event type prints null.) -/
def handleEventError (c : Coordinator α) (errMessage : String) (now : ℕ) :
    Coordinator α :=
  let typeStr :=
    match c.currentEvent with
    | some a => a.type
    | none => "null"
  eventCompleted
    { c with
      errorInfo := { code := 500,
                     message := "Error in event " ++ typeStr ++ ": " ++ errMessage },
      state := "error" }
    now

/-- updateEventProgress from mapCoordinator.js. -/
def updateEventProgress (c : Coordinator α) (progress : ℕ) : Coordinator α :=
  { c with currentEvent := c.currentEvent.map (fun a => { a with progress := progress }) }

/-! ### Helper lemmas -/

/-- A value other than null fails the strict null test. -/
theorem isNullVal_eq_false {v : JsNum} (h : v ≠ JsNum.null) : isNullVal v = false := by
  cases v <;> simp_all [isNullVal]

/-- Re-embedding a live marker and resolving its id again is the identity
whenever the id is not the falsy empty string. -/
theorem resolveId_rawOf (m : Marker) (h : m.id ≠ "") :
    resolveId (rawOf m) = m.id := by
  simp [resolveId, rawOf, h]

/-- addMarkerProps is a retraction of rawOf on markers with non-falsy ids. -/
theorem addMarkerProps_rawOf (m : Marker) (h : m.id ≠ "") :
    addMarkerProps (rawOf m) = m := by
  simp [addMarkerProps, rawOf, resolveId, h]

/-- A marker compared against its own re-embedding has not changed. -/
theorem hasMarkerChanged_rawOf_self (m : Marker) :
    hasMarkerChanged m (rawOf m) = false := by
  simp [hasMarkerChanged, rawOf]

/-- With nodup ids, the Map built over the live set retrieves each of its
markers. -/
theorem mapLookup_self (ms : List Marker)
    (hnd : (ms.map (fun x => x.id)).Nodup) :
    ∀ m ∈ ms, mapLookup ms m.id = some m := by
  induction ms with
  | nil => intro m hm; cases hm
  | cons x t ih =>
      intro m hm
      rw [List.map_cons, List.nodup_cons] at hnd
      rcases List.mem_cons.mp hm with rfl | hmt
      · have hft : t.filter (fun y => y.id == m.id) = [] := by
          rw [List.filter_eq_nil_iff]
          intro y hy
          have hne : y.id ≠ m.id := by
            intro he
            exact hnd.1 (he ▸ List.mem_map_of_mem (fun x => x.id) hy)
          simpa using hne
        simp [mapLookup, List.filter_cons, hft]
      · have hne : (x.id == m.id) = false := by
          have : x.id ≠ m.id := by
            intro he
            exact hnd.1 (he ▸ List.mem_map_of_mem (fun x => x.id) hmt)
          simpa using this
        have := ih hnd.2 m hmt
        simpa [mapLookup, List.filter_cons, hne] using this

/-- A diff step over the re-embedding of an unchanged, valid, present marker
only erases its id from the removal set. -/
theorem diffStep_unchanged (lk : String → Option Marker) (b : Marker)
    (st : DiffState) (hid : b.id ≠ "") (hlat : b.lat ≠ JsNum.null)
    (hlon : b.lon ≠ JsNum.null) (hlk : lk b.id = some b) :
    diffStep lk st (rawOf b) = { st with toRemove := st.toRemove.erase b.id } := by
  have h1 : isNullVal (rawOf b).lat = false := isNullVal_eq_false hlat
  have h2 : isNullVal (rawOf b).lon = false := isNullVal_eq_false hlon
  simp [diffStep, resolveId_rawOf b hid, h1, h2, hlk, hasMarkerChanged_rawOf_self]

/-- A diff step over a marker whose variant alone differs from the stored
version erases its id from the removal set and records exactly one in-place
update. -/
theorem diffStep_variant_changed (lk : String → Option Marker) (m : Marker)
    (v : ℚ) (st : DiffState) (hid : m.id ≠ "") (hlat : m.lat ≠ JsNum.null)
    (hlon : m.lon ≠ JsNum.null) (hlk : lk m.id = some m) (hv : v ≠ m.var) :
    diffStep lk st (rawOf { m with var := v }) =
      { st with toRemove := st.toRemove.erase m.id,
                updated := st.updated ++ [{ m with var := v }] } := by
  have h1 : isNullVal (rawOf { m with var := v }).lat = false := isNullVal_eq_false hlat
  have h2 : isNullVal (rawOf { m with var := v }).lon = false := isNullVal_eq_false hlon
  have hrid : resolveId (rawOf { m with var := v }) = m.id :=
    resolveId_rawOf { m with var := v } hid
  have hch : hasMarkerChanged m (rawOf { m with var := v }) = true := by
    simp [hasMarkerChanged, rawOf]
    exact Ne.symm hv
  have hprops : addMarkerProps (rawOf { m with var := v }) = { m with var := v } :=
    addMarkerProps_rawOf { m with var := v } hid
  simp [diffStep, hrid, h1, h2, hlk, hch, hprops]

/-- Folding the diff step over a block of unchanged, valid, present markers
only erases their ids from the removal set. -/
theorem foldl_diffStep_unchanged (lk : String → Option Marker) :
    ∀ (block : List Marker) (st : DiffState),
    (∀ b ∈ block, b.id ≠ "" ∧ b.lat ≠ JsNum.null ∧ b.lon ≠ JsNum.null ∧
      lk b.id = some b) →
    List.foldl (diffStep lk) st (block.map rawOf) =
      { st with toRemove := block.foldl (fun rr b => rr.erase b.id) st.toRemove } := by
  intro block
  induction block with
  | nil => intro st _; simp
  | cons b t ih =>
      intro st h
      obtain ⟨hid, hlat, hlon, hlk⟩ := h b (List.mem_cons_self b t)
      rw [List.map_cons, List.foldl_cons, diffStep_unchanged lk b st hid hlat hlon hlk,
        ih _ (fun x hx => h x (List.mem_cons_of_mem b hx)), List.foldl_cons]

/-- Erasing, in order, every element of a nodup list from itself empties it. -/
theorem foldl_erase_self : ∀ (l : List String), l.Nodup →
    List.foldl (fun rr s => rr.erase s) l l = [] := by
  intro l
  induction l with
  | nil => intro _; rfl
  | cons s t ih =>
      intro h
      rw [List.foldl_cons, List.erase_cons_head]
      exact ih (List.nodup_cons.mp h).2

/-- Folding erase-by-id over a block of markers is folding erase over their
ids. -/
theorem foldl_erase_by_id (blk : List Marker) (X : List String) :
    blk.foldl (fun rr b => rr.erase b.id) X
      = (blk.map (fun x => x.id)).foldl (fun rr s => rr.erase s) X := by
  rw [List.foldl_map]

/-! ### The eventCompleted sort: stable partition -/

/-- The comparator preorder is transitive. -/
theorem queueLe_trans {α : Type} : ∀ a b c : QueuedEvent α,
    queueLe a b = true → queueLe b c = true → queueLe a c = true := by
  intro a b c h1 h2
  cases hA : isHighQ a <;> cases hB : isHighQ b <;> cases hC : isHighQ c <;>
    simp_all [queueLe]

/-- The comparator preorder is total. -/
theorem queueLe_total {α : Type} : ∀ a b : QueuedEvent α,
    (queueLe a b || queueLe b a) = true := by
  intro a b
  cases hA : isHighQ a <;> cases hB : isHighQ b <;> simp [queueLe, hA, hB]

/-- A list split into a true-block followed by a false-block for a predicate
is split uniquely. -/
theorem split_by_pred_unique {β : Type} (P : β → Bool) :
    ∀ (xs1 : List β) {xs2 ys1 ys2 : List β},
    xs1 ++ xs2 = ys1 ++ ys2 →
    (∀ b ∈ xs1, P b = true) → (∀ b ∈ xs2, P b = false) →
    (∀ b ∈ ys1, P b = true) → (∀ b ∈ ys2, P b = false) →
    xs1 = ys1 ∧ xs2 = ys2 := by
  intro xs1
  induction xs1 with
  | nil =>
      intro xs2 ys1 ys2 he h1 h2 h3 h4
      cases ys1 with
      | nil => exact ⟨rfl, by simpa using he⟩
      | cons y t =>
          exfalso
          have hy : y ∈ xs2 := by
            have : xs2 = y :: (t ++ ys2) := by simpa using he
            rw [this]; exact List.mem_cons_self y _
          have hf := h2 y hy
          have ht := h3 y (List.mem_cons_self y t)
          rw [hf] at ht
          exact Bool.false_ne_true ht
  | cons x t ih =>
      intro xs2 ys1 ys2 he h1 h2 h3 h4
      cases ys1 with
      | nil =>
          exfalso
          have hx : x ∈ ys2 := by
            have : ys2 = x :: (t ++ xs2) := by simpa using he.symm
            rw [this]; exact List.mem_cons_self x _
          have hf := h4 x hx
          have ht := h1 x (List.mem_cons_self x t)
          rw [hf] at ht
          exact Bool.false_ne_true ht
      | cons y s =>
          have hxy : x = y ∧ t ++ xs2 = s ++ ys2 := by simpa using he
          obtain ⟨hr, hs2⟩ :=
            ih hxy.2 (fun b hb => h1 b (List.mem_cons_of_mem x hb)) h2
              (fun b hb => h3 b (List.mem_cons_of_mem y hb)) h4
          exact ⟨by rw [hxy.1, hr], hs2⟩

/-- The stable sort of eventCompleted with the high-first comparator is
exactly the stable partition: the high-priority entries in their original
order, followed by everything else in its original order. -/
theorem sortQueue_eq_partition {α : Type} (q : List (QueuedEvent α)) :
    sortQueue q =
      q.filter (fun e => isHighQ e) ++ q.filter (fun e => !isHighQ e) := by
  induction q with
  | nil => simp [sortQueue]
  | cons a l ih =>
      obtain ⟨l1, l2, h1, h2, h3⟩ :=
        List.mergeSort_cons queueLe_trans queueLe_total a l
      by_cases ha : isHighQ a = true
      · have hl1 : l1 = [] := by
          cases l1 with
          | nil => rfl
          | cons b tl =>
              have hb := h3 b (List.mem_cons_self b tl)
              exfalso
              simp [queueLe, ha] at hb
        subst hl1
        have hs1 : sortQueue (a :: l) = a :: l2 := by simpa [sortQueue] using h1
        have hs2 : l2 = l.filter (fun e => isHighQ e) ++ l.filter (fun e => !isHighQ e) := by
          have : sortQueue l = l2 := by simpa [sortQueue] using h2
          rw [← this, ih]
        rw [hs1, hs2]
        simp [List.filter_cons, ha]
      · have ha2 : isHighQ a = false := by simpa using ha
        have hl1 : ∀ b ∈ l1, isHighQ b = true := by
          intro b hb
          have := h3 b hb
          cases hB : isHighQ b <;> simp_all [queueLe]
        have hsorted := List.sorted_mergeSort queueLe_trans queueLe_total (a :: l)
        rw [h1] at hsorted
        have hl2 : ∀ b ∈ l2, isHighQ b = false := by
          intro b hb
          have hpw := (List.pairwise_append.mp hsorted).2.1
          have hab : queueLe a b = true := (List.pairwise_cons.mp hpw).1 b hb
          cases hB : isHighQ b
          · rfl
          · simp [queueLe, ha2, hB] at hab
        have hsplit : l1 ++ l2 =
            l.filter (fun e => isHighQ e) ++ l.filter (fun e => !isHighQ e) := by
          have : sortQueue l = l1 ++ l2 := by simpa [sortQueue] using h2
          rw [← this, ih]
        obtain ⟨e1, e2⟩ :=
          split_by_pred_unique (fun e => isHighQ e) l1 hsplit hl1 hl2
            (fun b hb => List.of_mem_filter hb)
            (fun b hb => by simpa using List.of_mem_filter hb)
        have hs1 : sortQueue (a :: l) = l1 ++ a :: l2 := by simpa [sortQueue] using h1
        rw [hs1, e1, e2]
        simp [List.filter_cons, ha2]

/-- The sort keeps the high entries in their original relative order. -/
theorem sortQueue_filter_high {α : Type} (q : List (QueuedEvent α)) :
    (sortQueue q).filter (fun e => isHighQ e) = q.filter (fun e => isHighQ e) := by
  rw [sortQueue_eq_partition, List.filter_append]
  have h1 : (q.filter (fun e => isHighQ e)).filter (fun e => isHighQ e)
      = q.filter (fun e => isHighQ e) := by
    rw [List.filter_filter]
    exact List.filter_congr (fun a _ => by cases h : isHighQ a <;> simp [h])
  have h2 : (q.filter (fun e => !isHighQ e)).filter (fun e => isHighQ e) = [] := by
    rw [List.filter_eq_nil_iff]
    intro a ha
    have := List.of_mem_filter ha
    simp_all
  rw [h1, h2, List.append_nil]

/-- A normal-priority entry is not a high one. -/
theorem normal_not_high {α : Type} (e : QueuedEvent α)
    (h : (e.priority == "normal") = true) : isHighQ e = false := by
  have h1 : e.priority = "normal" := by simpa using h
  simp [isHighQ, h1]

/-- The sort keeps the normal-priority entries in their original relative
order: two normal entries are never reordered relative to each other. -/
theorem sortQueue_filter_normal {α : Type} (q : List (QueuedEvent α)) :
    (sortQueue q).filter (fun e => e.priority == "normal")
      = q.filter (fun e => e.priority == "normal") := by
  rw [sortQueue_eq_partition, List.filter_append]
  have h1 : (q.filter (fun e => isHighQ e)).filter (fun e => e.priority == "normal")
      = [] := by
    rw [List.filter_eq_nil_iff]
    intro a ha hn
    have hhi := List.of_mem_filter ha
    rw [normal_not_high a hn] at hhi
    exact Bool.false_ne_true hhi
  have h2 : (q.filter (fun e => !isHighQ e)).filter (fun e => e.priority == "normal")
      = q.filter (fun e => e.priority == "normal") := by
    rw [List.filter_filter]
    apply List.filter_congr
    intro a _
    cases hn : (a.priority == "normal")
    · simp
    · simp [normal_not_high a hn]
  rw [h1, h2, List.nil_append]

/-- Unfolding of a completion that starts a dispatchable queue head: the
slot is filled from the head of the sorted queue and the rest of the sorted
queue remains. -/
theorem eventCompleted_start {α : Type} (c : Coordinator α) (now : ℕ)
    (e : QueuedEvent α) (rest : List (QueuedEvent α))
    (hsort : sortQueue c.eventQueue = e :: rest)
    (hcomp : c.componentInstance = true)
    (hdisp : hasAsyncHandler e.type = true) :
    eventCompleted c now =
      { c with currentEvent := some (mkActiveEvent e.type e.data "normal" now),
               eventQueue := rest } := by
  have hlen : c.eventQueue.length = rest.length + 1 := by
    have hl : (sortQueue c.eventQueue).length = c.eventQueue.length :=
      (List.mergeSort_perm c.eventQueue queueLe).length_eq
    rw [hsort] at hl
    simpa using hl.symm
  unfold eventCompleted
  rw [hlen]
  simp only [completeAux, hsort, hcomp, hdisp, Bool.and_self, if_true]

/-- Model coherence: on a non-empty queue, a completion is exactly a
startEvent of the sorted head over the popped state — the cascade of
completeAux agrees with the startEvent and executeEvent definitions. -/
theorem eventCompleted_eq_startEvent {α : Type} (c : Coordinator α) (now : ℕ)
    (e : QueuedEvent α) (rest : List (QueuedEvent α))
    (hsort : sortQueue c.eventQueue = e :: rest) :
    eventCompleted c now =
      startEvent { c with currentEvent := none, eventQueue := rest }
        e.type e.data "normal" now := by
  have hlen : c.eventQueue.length = rest.length + 1 := by
    have hl : (sortQueue c.eventQueue).length = c.eventQueue.length :=
      (List.mergeSort_perm c.eventQueue queueLe).length_eq
    rw [hsort] at hl
    simpa using hl.symm
  unfold eventCompleted startEvent executeEvent
  rw [hlen]
  simp only [completeAux, hsort]
  cases hcd : c.componentInstance && hasAsyncHandler e.type <;>
    simp [hcd, mkActiveEvent, eventCompleted]

/-! ### Claim theorems -/

/-- A concrete active event used to exercise the coordinator: an
interruptible data_update dispatched with the default priority. -/
def sampleActive : ActiveEvent ℕ :=
  mkActiveEvent "data_update" 7 "normal" 0

/-- A coordinator with a registered component and sampleActive running. -/
def sampleCoordinator : Coordinator ℕ :=
  { createCoordinator ℕ with
    currentEvent := some sampleActive, componentInstance := true }

/-- A coordinator with a registered component, an idle slot and a two-entry
queue: a normal data_update ahead of a high realtime_update. -/
def sampleQueued : Coordinator ℕ :=
  { createCoordinator ℕ with
    componentInstance := true,
    eventQueue := [{ type := "data_update", data := 1, priority := "normal", timestamp := 0 },
                   { type := "realtime_update", data := 2, priority := "high", timestamp := 0 }] }

/-- A coordinator with a registered component, sampleActive running and one
queued high realtime_update. -/
def sampleBusy : Coordinator ℕ :=
  { createCoordinator ℕ with
    componentInstance := true,
    currentEvent := some sampleActive,
    eventQueue := [{ type := "realtime_update", data := 2, priority := "high", timestamp := 0 }] }

/-- C1: with a component registered and a dispatchable event type, a
critical submission pushes the active event — with its type, data and prior
priority — onto the front of the queue and makes the critical event the
active event immediately, bypassing the queue.  (The prior priority of a
started event is never the falsy empty string.) -/
theorem critical_preemption_requeues_active {α : Type} (c : Coordinator α)
    (a : ActiveEvent α) (t : String) (d : α) (now : ℕ)
    (hact : c.currentEvent = some a) (hcomp : c.componentInstance = true)
    (hdisp : hasAsyncHandler t = true) (hpri : a.priority ≠ "") :
    (queueEvent c t d "critical" now).currentEvent
      = some (mkActiveEvent t d "critical" now) ∧
    (queueEvent c t d "critical" now).eventQueue
      = { type := a.type, data := a.data, priority := a.priority,
          timestamp := now } :: c.eventQueue := by
  have hq : queueEvent c t d "critical" now =
      executeEvent
        { c with
          eventQueue :=
            { type := a.type, data := a.data,
              priority := jsOrNormal a.priority, timestamp := now } :: c.eventQueue,
          currentEvent := some (mkActiveEvent t d "critical" now) } now := by
    simp [queueEvent, hact, startEvent]
  rw [hq]
  unfold executeEvent
  simp [mkActiveEvent, hcomp, hdisp, jsOrNormal, hpri]

/-- C1 witness: the sample coordinator preempted by a critical
realtime_update. -/
theorem critical_preemption_requeues_active_witness :
    (queueEvent sampleCoordinator "realtime_update" 5 "critical" 1).currentEvent
      = some (mkActiveEvent "realtime_update" 5 "critical" 1) :=
  (critical_preemption_requeues_active sampleCoordinator sampleActive
    "realtime_update" 5 1 rfl rfl (by decide) (by decide)).1

/-- C3 counterexample: the claim says a normal-priority submission never
preempts and is always appended, but a normal-priority user_zoom_change
submitted while the interruptible sampleActive is running preempts it: the
user event becomes active and the old active event is pushed to the queue
front promoted to high, not appended behind it. -/
theorem normal_user_event_preempts :
    (queueEvent sampleCoordinator "user_zoom_change" 0 "normal" 5).currentEvent
      = some (mkActiveEvent "user_zoom_change" 0 "normal" 5) ∧
    (queueEvent sampleCoordinator "user_zoom_change" 0 "normal" 5).eventQueue
      = [{ type := "data_update", data := 7, priority := "high", timestamp := 5 }] ∧
    ¬ ((queueEvent sampleCoordinator "user_zoom_change" 0 "normal" 5).currentEvent
          = sampleCoordinator.currentEvent ∧
       (queueEvent sampleCoordinator "user_zoom_change" 0 "normal" 5).eventQueue
          = sampleCoordinator.eventQueue ++
              [{ type := "user_zoom_change", data := 0, priority := "normal",
                 timestamp := 5 }]) := by
  decide

/-- C3 amended: a critical submission always preempts (the active event is
requeued at the front with its priority, subject to the falsy default); a
high submission preempts exactly when the active event is interruptible,
whatever its type — an interruptible active event is requeued at the front
promoted to high, a non-interruptible one stays active and the submission is
appended; a normal-priority submission preempts exactly when its type is
user-originated (starts with user_) and the active event is interruptible —
in every other case it is appended to the tail and the active event is
untouched.  Each clause is universal in the event type. -/
theorem priority_preemption_rules {α : Type} (c : Coordinator α)
    (a : ActiveEvent α) (t : String) (d : α) (now : ℕ)
    (hact : c.currentEvent = some a) (hcomp : c.componentInstance = true)
    (hdisp : hasAsyncHandler t = true) :
    ((queueEvent c t d "critical" now).currentEvent
        = some (mkActiveEvent t d "critical" now) ∧
     (queueEvent c t d "critical" now).eventQueue
        = { type := a.type, data := a.data, priority := jsOrNormal a.priority,
            timestamp := now } :: c.eventQueue) ∧
    (a.isInterruptible = true →
      (queueEvent c t d "high" now).currentEvent
          = some (mkActiveEvent t d "normal" now) ∧
      (queueEvent c t d "high" now).eventQueue
          = { type := a.type, data := a.data, priority := "high",
              timestamp := now } :: c.eventQueue) ∧
    (a.isInterruptible = false →
      (queueEvent c t d "high" now).currentEvent = some a ∧
      (queueEvent c t d "high" now).eventQueue
        = c.eventQueue ++ [{ type := t, data := d, priority := "high",
                             timestamp := now }]) ∧
    (strStartsWith t "user_" = true → a.isInterruptible = true →
      (queueEvent c t d "normal" now).currentEvent
          = some (mkActiveEvent t d "normal" now) ∧
      (queueEvent c t d "normal" now).eventQueue
          = { type := a.type, data := a.data, priority := "high",
              timestamp := now } :: c.eventQueue) ∧
    (strStartsWith t "user_" = false ∨ a.isInterruptible = false →
      (queueEvent c t d "normal" now).currentEvent = some a ∧
      (queueEvent c t d "normal" now).eventQueue
        = c.eventQueue ++ [{ type := t, data := d, priority := "normal",
                             timestamp := now }]) := by
  refine ⟨?_, ?_, ?_, ?_, ?_⟩
  · have hq : queueEvent c t d "critical" now =
        executeEvent
          { c with
            eventQueue :=
              { type := a.type, data := a.data,
                priority := jsOrNormal a.priority, timestamp := now } :: c.eventQueue,
            currentEvent := some (mkActiveEvent t d "critical" now) } now := by
      simp [queueEvent, hact, startEvent]
    rw [hq]
    unfold executeEvent
    simp [mkActiveEvent, hcomp, hdisp]
  · intro hint
    have hq : queueEvent c t d "high" now =
        executeEvent
          { c with
            eventQueue :=
              { type := a.type, data := a.data,
                priority := "high", timestamp := now } :: c.eventQueue,
            currentEvent := some (mkActiveEvent t d "normal" now) } now := by
      simp [queueEvent, hact, startEvent, hint]
    rw [hq]
    unfold executeEvent
    simp [mkActiveEvent, hcomp, hdisp]
  · intro hint
    cases hu : strStartsWith t "user_" <;>
      simp [queueEvent, hact, hint, hu]
  · intro hu hint
    have hq : queueEvent c t d "normal" now =
        executeEvent
          { c with
            eventQueue :=
              { type := a.type, data := a.data,
                priority := "high", timestamp := now } :: c.eventQueue,
            currentEvent := some (mkActiveEvent t d "normal" now) } now := by
      simp [queueEvent, hact, startEvent, hint, hu]
    rw [hq]
    unfold executeEvent
    simp [mkActiveEvent, hcomp, hdisp]
  · intro hor
    rcases hor with hu | hint
    · simp [queueEvent, hact, hu]
    · cases hu : strStartsWith t "user_" <;>
        simp [queueEvent, hact, hint, hu]

/-- C3 amended witness: a normal-priority, non-user data_update submitted
while sampleActive runs is appended to the tail and does not preempt. -/
theorem priority_preemption_rules_witness :
    (queueEvent sampleCoordinator "data_update" 5 "normal" 1).currentEvent
      = some sampleActive ∧
    (queueEvent sampleCoordinator "data_update" 5 "normal" 1).eventQueue
      = sampleCoordinator.eventQueue ++
          [{ type := "data_update", data := 5, priority := "normal",
             timestamp := 1 }] :=
  (priority_preemption_rules sampleCoordinator sampleActive "data_update" 5 1
      rfl rfl (by decide)).2.2.2.2 (Or.inl (by decide))

/-- C7: completing with a non-empty queue whose stably sorted head is
dispatchable starts that head (slot filled from it, queue keeps the rest);
the applied sort is the stable partition putting every high entry before
every non-high entry, and it preserves the relative order of the high
entries and of the normal entries — two normal entries are never reordered
relative to each other. -/
theorem completion_pops_stably_sorted_queue {α : Type} (c : Coordinator α)
    (now : ℕ) (e : QueuedEvent α) (rest : List (QueuedEvent α))
    (hcomp : c.componentInstance = true)
    (hsort : sortQueue c.eventQueue = e :: rest)
    (hdisp : hasAsyncHandler e.type = true) :
    (eventCompleted c now).currentEvent
      = some (mkActiveEvent e.type e.data "normal" now) ∧
    (eventCompleted c now).eventQueue = rest ∧
    sortQueue c.eventQueue
      = c.eventQueue.filter (fun x => isHighQ x)
          ++ c.eventQueue.filter (fun x => !isHighQ x) ∧
    (sortQueue c.eventQueue).filter (fun x => isHighQ x)
      = c.eventQueue.filter (fun x => isHighQ x) ∧
    (sortQueue c.eventQueue).filter (fun x => x.priority == "normal")
      = c.eventQueue.filter (fun x => x.priority == "normal") := by
  rw [eventCompleted_start c now e rest hsort hcomp hdisp]
  exact ⟨by simp, by simp, sortQueue_eq_partition _, sortQueue_filter_high _,
    sortQueue_filter_normal _⟩

/-- C7 witness: on the sample queue the high realtime_update is promoted
ahead of the earlier normal data_update and started. -/
theorem completion_pops_stably_sorted_queue_witness :
    (eventCompleted sampleQueued 9).currentEvent
      = some (mkActiveEvent "realtime_update" 2 "normal" 9) ∧
    (eventCompleted sampleQueued 9).eventQueue
      = [{ type := "data_update", data := 1, priority := "normal", timestamp := 0 }] := by
  have h := completion_pops_stably_sorted_queue sampleQueued 9
    { type := "realtime_update", data := 2, priority := "high", timestamp := 0 }
    [{ type := "data_update", data := 1, priority := "normal", timestamp := 0 }]
    rfl (by rw [sortQueue_eq_partition]; decide) (by decide)
  exact ⟨h.1, h.2.1⟩

/-- C8: a dispatch failure records the 500 error code and the composed
message into the error state, moves the coordinator to the error state, and
still completes the event: the next queued event (the dispatchable head of
the sorted queue) is started and only it leaves the queue — the failure
neither stalls the queue nor drops queued events. -/
theorem dispatch_error_records_and_continues {α : Type} (c : Coordinator α)
    (a : ActiveEvent α) (msg : String) (now : ℕ) (e : QueuedEvent α)
    (rest : List (QueuedEvent α))
    (hact : c.currentEvent = some a) (hcomp : c.componentInstance = true)
    (hsort : sortQueue c.eventQueue = e :: rest)
    (hdisp : hasAsyncHandler e.type = true) :
    (handleEventError c msg now).state = "error" ∧
    (handleEventError c msg now).errorInfo
      = { code := 500, message := "Error in event " ++ a.type ++ ": " ++ msg } ∧
    (handleEventError c msg now).currentEvent
      = some (mkActiveEvent e.type e.data "normal" now) ∧
    (handleEventError c msg now).eventQueue = rest := by
  have h2 := eventCompleted_start
    { c with
      errorInfo := { code := 500,
                     message := "Error in event " ++ a.type ++ ": " ++ msg },
      state := "error", currentEvent := some a } now e rest hsort hcomp hdisp
  simp only [handleEventError, hact, h2]
  exact ⟨trivial, trivial, trivial, trivial⟩

/-- C8 witness: a dispatch failure of sampleActive on sampleBusy records the
error and starts the queued realtime_update, emptying the queue. -/
theorem dispatch_error_records_and_continues_witness :
    (handleEventError sampleBusy "boom" 4).state = "error" ∧
    (handleEventError sampleBusy "boom" 4).errorInfo
      = { code := 500, message := "Error in event data_update: boom" } ∧
    (handleEventError sampleBusy "boom" 4).currentEvent
      = some (mkActiveEvent "realtime_update" 2 "normal" 4) ∧
    (handleEventError sampleBusy "boom" 4).eventQueue = [] :=
  dispatch_error_records_and_continues sampleBusy sampleActive "boom" 4
    { type := "realtime_update", data := 2, priority := "high", timestamp := 0 }
    [] rfl rfl (by rw [sortQueue_eq_partition]; decide) (by decide)

/-- C2: the claim says that after three consecutive failed updates no further
tick is ever scheduled.  The code evaluated at the failing input shows the
opposite: on the third consecutive failure of an internal (timer-driven)
update the error counter reaches maxConsecutiveErrors, the catch block
returns early, but the finally block still calls scheduleNextUpdate because
the spent timer handle is still stored — a further tick is scheduled. -/
theorem performUpdate_third_failure_still_schedules :
    (performUpdate
        { updateTimer := true, errorCount := 2, isUpdating := false,
          lastUpdateTime := none }
        false UpdateOutcome.failure 100).rt.errorCount = maxConsecutiveErrors ∧
    (performUpdate
        { updateTimer := true, errorCount := 2, isUpdating := false,
          lastUpdateTime := none }
        false UpdateOutcome.failure 100).scheduledNext = true := by
  decide

/-- C4: against a live set with nodup, non-falsy ids and valid coordinates,
a refresh list identical to the live set except for exactly one marker whose
variant differs performs exactly one in-place update, stages zero additions
and schedules zero removals. -/
theorem incremental_single_variant_update (pre post : List Marker) (m : Marker)
    (v : ℚ)
    (hnd : ((pre ++ m :: post).map (fun x => x.id)).Nodup)
    (hids : ∀ x ∈ pre ++ m :: post, x.id ≠ "")
    (hlats : ∀ x ∈ pre ++ m :: post, x.lat ≠ JsNum.null)
    (hlons : ∀ x ∈ pre ++ m :: post, x.lon ≠ JsNum.null)
    (hv : v ≠ m.var) :
    updateChangedMarkers (pre ++ m :: post)
        (pre.map rawOf ++ rawOf { m with var := v } :: post.map rawOf)
      = { toRemove := [], toAdd := [], updated := [{ m with var := v }] } := by
  have hm : m ∈ pre ++ m :: post := by simp
  have hcond : ∀ b ∈ pre ++ m :: post,
      b.id ≠ "" ∧ b.lat ≠ JsNum.null ∧ b.lon ≠ JsNum.null ∧
      mapLookup (pre ++ m :: post) b.id = some b :=
    fun b hb => ⟨hids b hb, hlats b hb, hlons b hb, mapLookup_self _ hnd b hb⟩
  unfold updateChangedMarkers
  rw [List.dedup_eq_self.mpr hnd]
  rw [List.foldl_append,
    foldl_diffStep_unchanged _ pre _
      (fun b hb => hcond b (List.mem_append_left _ hb)),
    List.foldl_cons,
    diffStep_variant_changed _ m v _ (hids m hm) (hlats m hm) (hlons m hm)
      (mapLookup_self _ hnd m hm) hv,
    foldl_diffStep_unchanged _ post _
      (fun b hb => hcond b (List.mem_append_right _ (List.mem_cons_of_mem m hb)))]
  have hrem : post.foldl (fun rr b => rr.erase b.id)
      ((pre.foldl (fun rr b => rr.erase b.id)
          ((pre ++ m :: post).map (fun x => x.id))).erase m.id) = [] := by
    rw [foldl_erase_by_id, foldl_erase_by_id]
    have hmid : ((pre.map (fun x => x.id)).foldl (fun rr s => rr.erase s)
          ((pre ++ m :: post).map (fun x => x.id))).erase m.id
        = List.foldl (fun rr s => rr.erase s)
            ((pre ++ m :: post).map (fun x => x.id))
            (pre.map (fun x => x.id) ++ [m.id]) := by
      rw [List.foldl_append]
      rfl
    rw [hmid, ← List.foldl_append]
    have hsplit : (pre.map (fun x => x.id) ++ [m.id]) ++ post.map (fun x => x.id)
        = (pre ++ m :: post).map (fun x => x.id) := by
      simp
    rw [hsplit]
    exact foldl_erase_self _ hnd
  simp only [List.map_append, List.map_cons] at hrem
  simp [hrem]

/-- C4 witness: a singleton live set refreshed with the same marker at a new
variant value yields exactly one update and no additions or removals. -/
theorem incremental_single_variant_update_witness :
    updateChangedMarkers
        [{ id := "a", i := 0, lat := JsNum.num 1, lon := JsNum.num 2,
           name := "n", var := 1 }]
        [rawOf { id := "a", i := 0, lat := JsNum.num 1, lon := JsNum.num 2,
                 name := "n", var := 9 }]
      = { toRemove := [], toAdd := [],
          updated := [{ id := "a", i := 0, lat := JsNum.num 1,
                        lon := JsNum.num 2, name := "n", var := 9 }] } :=
  incremental_single_variant_update [] []
    { id := "a", i := 0, lat := JsNum.num 1, lon := JsNum.num 2,
      name := "n", var := 1 }
    9 (by simp) (by simp) (by simp) (by simp) (by norm_num)

/-- C5: updateMarkersFromData takes the full-rebuild path exactly when the
absolute difference between the current marker count and the incoming list
length exceeds 10, or a map_url or refreshMode flag is carried; at a
difference of exactly 10 with no flag the incremental path is taken. -/
theorem updateMarkersFromData_threshold (n : ℕ) (l : List RawMarker) (u r : Bool) :
    (updateMarkersFromData n { list := some l, map_url := u, refreshMode := r }
        = UpdatePath.full ↔
      (10 < ((n : ℤ) - (l.length : ℤ)).natAbs ∨ u = true ∨ r = true)) ∧
    (((n : ℤ) - (l.length : ℤ)).natAbs = 10 → u = false → r = false →
      updateMarkersFromData n { list := some l, map_url := u, refreshMode := r }
        = UpdatePath.incremental) := by
  constructor
  · constructor
    · intro h
      by_contra hc
      push_neg at hc
      obtain ⟨h1, h2, h3⟩ := hc
      simp [updateMarkersFromData, shouldRefreshAllMarkers, h1, h2, h3] at h
    · intro h
      have hs : shouldRefreshAllMarkers n { list := some l, map_url := u, refreshMode := r } = true := by
        simp only [shouldRefreshAllMarkers]
        rcases h with h | h | h <;> simp [h]
      simp [updateMarkersFromData, hs]
  · intro h hu hr
    subst hu; subst hr
    simp [updateMarkersFromData, shouldRefreshAllMarkers, h]

/-- C5 witness: with 20 live markers and an incoming list of length 10 the
difference is exactly 10 and the incremental path is taken. -/
theorem updateMarkersFromData_threshold_witness :
    updateMarkersFromData 20
        { list := some (List.replicate 10
            { id := none, i := 0, lat := JsNum.null, lon := JsNum.null,
              name := "", var := 0 }),
          map_url := false, refreshMode := false }
      = UpdatePath.incremental :=
  (updateMarkersFromData_threshold 20
      (List.replicate 10
        { id := none, i := 0, lat := JsNum.null, lon := JsNum.null,
          name := "", var := 0 })
      false false).2 (by simp) rfl rfl

/-- C6 counterexample: a marker at longitude exactly 180 has valid
coordinates and lies beyond the plus-or-minus 140 threshold, so it is
duplicated, but normalizing the longitude of its duplicate yields -180,
which is not equal to the original longitude 180 — the round-trip equality
asserted by the claim fails at this input. -/
theorem dateLine_roundtrip_fails_at_180 :
    crossesDateLine (JsNum.num 180) = true ∧
    (duplicateMarkerAcrossDateLine
        { id := "m0", i := 0, lat := JsNum.num 10, lon := JsNum.num 180,
          name := "x", var := 0 }).lon = JsNum.num (dateLineLon 180) ∧
    normalizeCoordinates (dateLineLon 180) = -180 ∧
    ¬ normalizeCoordinates (dateLineLon 180) = 180 := by
  refine ⟨?_, rfl, ?_, ?_⟩
  · norm_num [crossesDateLine, JsNum.ltNum, JsNum.gtNum]
  · norm_num [dateLineLon, normalizeCoordinates]
  · norm_num [dateLineLon, normalizeCoordinates]

/-- C6 amended: for a marker with valid coordinates whose longitude lies
beyond plus-or-minus 140 degrees and strictly inside plus-or-minus 180
degrees, processing produces exactly one synthetic duplicate, whose id is
the original id with the _dateline suffix and whose longitude is
180 + (180 + lon) for lon < 0 and -180 - (180 - lon) otherwise; normalizing
the longitude of the duplicate lands in [-180, 180] and recovers the
original longitude.  (The counterexample above forces the exclusion of the
two boundary longitudes.) -/
theorem dateLine_duplication_roundtrip (r : RawMarker) (q : ℚ)
    (hlon : r.lon = JsNum.num q) (hlat : r.lat ≠ JsNum.null)
    (hlo : -180 < q) (hhi : q < 180) (hfar : q < -140 ∨ 140 < q) :
    processMarkers [r] =
      [addMarkerProps r, duplicateMarkerAcrossDateLine (addMarkerProps r)] ∧
    (duplicateMarkerAcrossDateLine (addMarkerProps r)).id
      = (addMarkerProps r).id ++ "_dateline" ∧
    (duplicateMarkerAcrossDateLine (addMarkerProps r)).lon
      = JsNum.num (dateLineLon q) ∧
    dateLineLon q = (if q < 0 then 180 + (180 + q) else -180 - (180 - q)) ∧
    normalizeCoordinates (dateLineLon q) = q ∧
    -180 ≤ normalizeCoordinates (dateLineLon q) ∧
    normalizeCoordinates (dateLineLon q) ≤ 180 := by
  have hcross : crossesDateLine r.lon = true := by
    rw [hlon]
    rcases hfar with h | h <;> simp [crossesDateLine, JsNum.ltNum, JsNum.gtNum, h]
  have hroundtrip : normalizeCoordinates (dateLineLon q) = q := by
    unfold normalizeCoordinates dateLineLon
    rcases hfar with h | h <;> split_ifs <;> linarith
  refine ⟨?_, rfl, ?_, rfl, hroundtrip, ?_, ?_⟩
  · have hlat2 : isNullVal (addMarkerProps r).lat = false := isNullVal_eq_false hlat
    have hlon2 : isNullVal (addMarkerProps r).lon = false := by
      show isNullVal r.lon = false
      rw [hlon]; rfl
    have hcross2 : crossesDateLine (addMarkerProps r).lon = true := hcross
    simp [processMarkers, hlat2, hlon2, hcross2]
  · simp [duplicateMarkerAcrossDateLine, addMarkerProps, hlon]
  · rw [hroundtrip]; linarith
  · rw [hroundtrip]; linarith

/-- C6 witness: at longitude 170 the duplicate longitude normalizes back to
170. -/
theorem dateLine_duplication_roundtrip_witness :
    normalizeCoordinates (dateLineLon 170) = 170 :=
  (dateLine_duplication_roundtrip
      { id := some "a", i := 0, lat := JsNum.num 1, lon := JsNum.num 170,
        name := "n", var := 0 }
      170 rfl (by simp) (by norm_num) (by norm_num)
      (Or.inr (by norm_num))).2.2.2.2.1

/-- C9: icon sizes are monotonically non-increasing in the zoom level,
componentwise for both the regular and the satellite icon. -/
theorem calculateIconSizes_antitone (z1 z2 : ℚ) (h : z1 ≤ z2) :
    (calculateIconSizes z2).icon.size.1 ≤ (calculateIconSizes z1).icon.size.1 ∧
    (calculateIconSizes z2).icon.size.2 ≤ (calculateIconSizes z1).icon.size.2 ∧
    (calculateIconSizes z2).satellite.size.1 ≤ (calculateIconSizes z1).satellite.size.1 ∧
    (calculateIconSizes z2).satellite.size.2 ≤ (calculateIconSizes z1).satellite.size.2 := by
  unfold calculateIconSizes buildIconSizes
  split_ifs <;>
    refine ⟨?_, ?_, ?_, ?_⟩ <;> simp <;> norm_num <;> linarith

/-- C9 witness: at zoom levels 3 and 8 the sizes compare as claimed. -/
theorem calculateIconSizes_antitone_witness :
    (calculateIconSizes 8).icon.size.1 ≤ (calculateIconSizes 3).icon.size.1 ∧
    (calculateIconSizes 8).icon.size.2 ≤ (calculateIconSizes 3).icon.size.2 ∧
    (calculateIconSizes 8).satellite.size.1 ≤ (calculateIconSizes 3).satellite.size.1 ∧
    (calculateIconSizes 8).satellite.size.2 ≤ (calculateIconSizes 3).satellite.size.2 :=
  calculateIconSizes_antitone 3 8 (by norm_num)

/-- C10: both reconciliation paths exclude a record exactly when its lat or
lon is strictly null; a record with an absent (undefined) coordinate passes
the validity check and is added to the live set on both the full-rebuild and
the incremental path. -/
theorem null_check_excludes_only_null (m : RawMarker) :
    (processMarkers [m] = [] ↔ (m.lat = JsNum.null ∨ m.lon = JsNum.null)) ∧
    ((updateChangedMarkers [] [m]).toAdd = [] ↔
      (m.lat = JsNum.null ∨ m.lon = JsNum.null)) ∧
    ((m.lat = JsNum.undef ∨ m.lon = JsNum.undef) → m.lat ≠ JsNum.null →
      m.lon ≠ JsNum.null →
        addMarkerProps m ∈ processMarkers [m] ∧
        addMarkerProps m ∈ (updateChangedMarkers [] [m]).toAdd) := by
  obtain ⟨mid, i, lat, lon, name, v⟩ := m
  refine ⟨?_, ?_, ?_⟩
  · cases lat <;> cases lon <;>
      simp [processMarkers, addMarkerProps, isNullVal] <;> split_ifs <;> simp
  · cases lat <;> cases lon <;>
      simp [updateChangedMarkers, diffStep, mapLookup, addMarkerProps, isNullVal] <;>
      split_ifs <;> simp
  · intro hu h1 h2
    constructor
    · simp [processMarkers, isNullVal_eq_false h1, isNullVal_eq_false h2,
        addMarkerProps]
      split_ifs <;> simp
    · simp [updateChangedMarkers, diffStep, mapLookup,
        isNullVal_eq_false h1, isNullVal_eq_false h2, addMarkerProps]
      split_ifs <;> simp

/-- C10 witness: a record with an undefined lat and a numeric lon is kept by
both paths, and the two exclusion equivalences hold for it. -/
theorem null_check_excludes_only_null_witness :
    addMarkerProps
        { id := some "a", i := 0, lat := JsNum.undef, lon := JsNum.num 5,
          name := "n", var := 1 }
      ∈ processMarkers
          [{ id := some "a", i := 0, lat := JsNum.undef, lon := JsNum.num 5,
             name := "n", var := 1 }] ∧
    addMarkerProps
        { id := some "a", i := 0, lat := JsNum.undef, lon := JsNum.num 5,
          name := "n", var := 1 }
      ∈ (updateChangedMarkers []
          [{ id := some "a", i := 0, lat := JsNum.undef, lon := JsNum.num 5,
             name := "n", var := 1 }]).toAdd :=
  (null_check_excludes_only_null
      { id := some "a", i := 0, lat := JsNum.undef, lon := JsNum.num 5,
        name := "n", var := 1 }).2.2
    (Or.inl rfl) (by simp) (by simp)

end RealtimeMap
